import Mathlib

/-!
Verification of the protocol/codec layer of the p1255 oscilloscope client.

The embedding models the Python sources byte-for-byte:
byte buffers are lists of naturals (each below 256 where it matters),
machine integers are `Int`/`Nat` with explicit `% 2 ^ w` at the points the
code packs them into wire bytes, and floating-point arithmetic on
measurement values is modelled exactly over `ℚ` (the formulas involved
only add, multiply and divide by constants, so the rational model is the
intended exact semantics of the code's formulas).  Fallible operations
return `Except`/`Option` mirroring the Python exceptions.
-/

namespace P1255

/-- The `Data.pop` method of `data.py` (lines 26-32): take `length` bytes off
the front of the buffer, failing with a `ValueError` when fewer remain.  The
returned pair is (popped chunk, remaining buffer); on failure the buffer is
not touched (the Python method raises before reassigning `self.data`). -/
def pop (buf : List Nat) (length : Nat) : Except String (List Nat × List Nat) :=
  if buf.length < length then .error "Not enough data to pop."
  else .ok (buf.take length, buf.drop length)

/-- Population count of one byte, as Python's `int.bit_count()` computes it
on a value below 256 (`data.py` line 174). -/
def bitCount8 (b : Nat) : Nat :=
  b % 2 + b / 2 % 2 + b / 4 % 2 + b / 8 % 2 + b / 16 % 2 + b / 32 % 2 + b / 64 % 2 + b / 128 % 2

/-- The fixed-layout waveform header of `Waveform.interpret_header`
(`data.py` lines 158-175): 8 + 10 + 12 + 19 + 1 + 12 = 62 bytes. -/
structure WaveformHeader where
  unknown_1 : List Nat
  unknown_2 : List Nat
  serial_number : List Nat
  unknown_3 : List Nat
  n_channels : Nat
  unknown_4 : List Nat
deriving Repr, DecidableEq

/-- The `Waveform.interpret_header` method of `data.py` (lines 158-175):
pop the six fixed-size header fields in order; the channel count is the
population count of the single bitmap byte.  Returns the header together
with the remaining (channel data) bytes. -/
def interpret_header (buf : List Nat) : Except String (WaveformHeader × List Nat) :=
  match pop buf 8 with
  | .error e => .error e
  | .ok (u1, b1) =>
  match pop b1 10 with
  | .error e => .error e
  | .ok (u2, b2) =>
  match pop b2 12 with
  | .error e => .error e
  | .ok (sn, b3) =>
  match pop b3 19 with
  | .error e => .error e
  | .ok (u3, b4) =>
  match pop b4 1 with
  | .error e => .error e
  | .ok (nb, b5) =>
  match pop b5 12 with
  | .error e => .error e
  | .ok (u4, b6) => .ok (⟨u1, u2, sn, u3, bitCount8 (nb.headD 0), u4⟩, b6)

/-- The channel-splitting loop of `Waveform.split_channels` (`data.py`
lines 182-185): pop `len_per_channel` bytes once per channel, in order. -/
def splitLoop : Nat → Nat → List Nat → List (List Nat)
  | 0, _, _ => []
  | k + 1, len, buf => buf.take len :: splitLoop k len (buf.drop len)

/-- The `Waveform.split_channels` method of `data.py` (lines 177-185):
fail when the remaining byte count is not a multiple of the channel count,
otherwise cut the buffer into `n_channels` consecutive equal slices.
Python raises `ZeroDivisionError` at `len % 0`; the first guard mirrors
that. -/
def split_channels (buf : List Nat) (n_channels : Nat) : Except String (List (List Nat)) :=
  if n_channels = 0 then .error "integer division or modulo by zero"
  else if buf.length % n_channels ≠ 0 then
    .error "Data length is not a multiple of the number of channels."
  else .ok (splitLoop n_channels (buf.length / n_channels) buf)

/-- The keys of the `VOLTBASE` table of `commands.py` (lines 37-51), in
volts per division; `data.py` line 117 resolves a voltscale index by
positional lookup in this 12-entry list. -/
def VOLTBASELIST : List ℚ :=
  [2/1000, 5/1000, 10/1000, 20/1000, 50/1000, 100/1000, 200/1000, 500/1000, 1, 2, 5, 10]

/-- The voltscale lookup `list(cm.VOLTBASE.keys())[self.voltscale_index]` of
`data.py` line 117: positional indexing, `none` models the `IndexError`
Python raises past the end of the list. -/
def voltscale_of_index (i : Nat) : Option ℚ :=
  VOLTBASELIST[i]?

/-- The mantissa dictionary `{0: 1, 1: 2, 2: 5}` of
`Waveform.Channel.calc_timescale` (`data.py` line 147), total on the
residues 0, 1, 2 that `number % 3` produces. -/
def timescaleMant (r : Nat) : ℚ :=
  if r = 0 then 1 else if r = 1 then 2 else 5

/-- The `Waveform.Channel.calc_timescale` method of `data.py` (lines
144-149): `exp = floor(number / 3)`, `mant = {0:1, 1:2, 2:5}[number % 3]`,
`15 * mant * 10 ** exp * 1e-9` seconds (15 horizontal screen divisions,
nanoseconds to seconds). -/
def calc_timescale (number : Nat) : ℚ :=
  let exp := number / 3
  let mant := timescaleMant (number % 3)
  let time_per_div := mant * 10 ^ exp
  15 * time_per_div * (1 / 10 ^ 9)

/-- The `Waveform.Channel.normal_to_volt` static method (`data.py` line
133-134): `ch * scale / 25`. -/
def normal_to_volt (ch : ℤ) (scale : ℚ) (off : ℤ) : ℚ :=
  ch * scale / 25

/-- The `Waveform.Channel.normal_to_screen` static method (`data.py` lines
128-130): `(ch + off) / 25`. -/
def normal_to_screen (ch : ℤ) (scale : ℚ) (off : ℤ) : ℚ :=
  ((ch : ℚ) + off) / 25

/-- The `Waveform.Channel.deep_to_volt` static method (`data.py` lines
136-138): `scale * (ch / 2 ** 8 - off) / 25` with true (rational)
division of the sample by 256. -/
def deep_to_volt (ch : ℤ) (scale : ℚ) (off : ℤ) : ℚ :=
  scale * ((ch : ℚ) / 2 ^ 8 - off) / 25

/-- The `Waveform.Channel.deep_to_screen` static method (`data.py` lines
140-142): `(ch / 2 ** 8) / 25`. -/
def deep_to_screen (ch : ℤ) (scale : ℚ) (off : ℤ) : ℚ :=
  ((ch : ℚ) / 2 ^ 8) / 25

/-- Python's built-in `round`: round half to even (banker's rounding), as
used by `trigger_voltage` in `commands.py` line 111. -/
def pyRound (q : ℚ) : ℤ :=
  let f := ⌊q⌋
  let frac := q - f
  if frac < 1/2 then f
  else if 1/2 < frac then f + 1
  else if f % 2 = 0 then f else f + 1

/-- Big-endian two's-complement byte serialisation of a signed 32-bit
integer, as `struct.pack(">i", steps)` performs it for an in-range
argument. -/
def int32be (steps : ℤ) : List Nat :=
  let u := (steps % 2 ^ 32).toNat
  [u / 2 ^ 24 % 256, u / 2 ^ 16 % 256, u / 2 ^ 8 % 256, u % 256]

/-- The `struct.pack(">i", steps)` call of `commands.py` line 112,
including the range check `struct` performs on a signed 32-bit target. -/
def pack_int32be (steps : ℤ) : Except String (List Nat) :=
  if steps < -(2 ^ 31) ∨ 2 ^ 31 ≤ steps then
    .error "argument out of range"
  else .ok (int32be steps)

/-- The clamping conditionals of `trigger_voltage` (`commands.py` lines
107-110): `if voltage < -7: voltage = -7` / `elif voltage > 5: voltage = 5`. -/
def trigger_clamp (voltage : ℚ) : ℚ :=
  if voltage < -7 then -7 else if 5 < voltage then 5 else voltage

/-- The `trigger_voltage` function of `commands.py` (lines 91-113): clamp
the requested volts to [-7, 5], divide by the 0.04 V step size, round to
the nearest integer (half to even) and pack the step count as a big-endian
signed 32-bit integer.  The result list is the bytes the returned hex
string denotes. -/
def trigger_voltage (voltage : ℚ) : Except String (List Nat) :=
  pack_int32be (pyRound (trigger_clamp voltage / (4/100)))

/-- The receive loop of `P1255.capture` (`p1255.py` lines 64-68): keep
calling `recv_into(buffer[read:], length - read)` until `read` reaches
`length`.  The transport is modelled as the schedule of byte chunks the
successive `recv_into` calls return; a `recv` never delivers more than
the `length - read` bytes requested.  An empty chunk is the closed
connection (`recv_into` returning 0), on which the code raises
`ConnectionError("Socket connection lost during data capture.")` — a
fixed message carrying no byte counts.  A schedule running dry while the
loop still wants bytes is the blocking read hitting the 1-second socket
timeout, Python's `TimeoutError("timed out")`.  (The `except` clause at
lines 71-72 re-raises either as
`ConnectionError(f"Socket error during capture: {e}")`, again without
byte counts; the inner message is modelled.) -/
def capture_loop (length : Nat) (read : Nat) (buffer : List Nat) :
    List (List Nat) → Except String (List Nat)
  | [] => if length ≤ read then .ok buffer else .error "timed out"
  | c :: rest =>
    if length ≤ read then .ok buffer
    else
      let delivered := c.take (length - read)
      if delivered.length = 0 then .error "Socket connection lost during data capture."
      else capture_loop length (read + delivered.length) (buffer ++ delivered) rest

/-- The `P1255.capture` frame read of `p1255.py` lines 56-68 after the
two length bytes `b0 b1` have been received: the expected total is the
little-endian 16-bit value plus the constant 12 (`constants.LEN_UNKNOWN`
is not under src/; `capture.py` line 64 writes the same computation with
the literal 12, "2 bytes length information + 10 bytes header", matching
the spec's short-memory offset).  The two already-read length bytes are
kept as the first two bytes of the preallocated buffer (`buffer[:2] =
payload`) and counted in `read = 2`. -/
def capture (b0 b1 : Nat) (chunks : List (List Nat)) : Except String (List Nat) :=
  let length := (b0 + 256 * b1) + 12
  capture_loop length 2 [b0, b1] chunks

/-- The fixed SCPI response token set of `p1255_2.py` lines 12-25, each
token as its character list. -/
def SCPI_RESPONSES : List (List Char) :=
  ["1K".toList, "10K".toList, "100K".toList, "1M".toList, "10M".toList,
   "4".toList, "16".toList, "64".toList, "128".toList,
   "PEAK".toList, "SAMPle".toList, "AVERage".toList]

/-- The accumulation loop of `P1255.receive_scpi_response` (`p1255_2.py`
lines 115-120): read one character, append it to the accumulator, stop as
soon as the accumulator is exactly a member of `SCPI_RESPONSES`.  The
input list is the stream of characters the successive `recv(1)` calls
deliver; `none` models the stream running dry before any exact match
(the Python loop would block and eventually raise `TimeoutError`). -/
def receive_scpi_loop (response : List Char) : List Char → Option (List Char × List Char)
  | [] => none
  | c :: rest =>
    let r := response ++ [c]
    if r ∈ SCPI_RESPONSES then some (r, rest) else receive_scpi_loop r rest

/-- The `P1255.receive_scpi_response` method of `p1255_2.py` (lines
105-127): run the accumulation loop starting from the empty string,
returning the matched token and the unconsumed remainder of the stream. -/
def receive_scpi_response (input : List Char) : Option (List Char × List Char) :=
  receive_scpi_loop [] input

/-- ASCII encoding of a marker string, as `Command.add_ascii` /
`ascii_to_hex_str` of `p1255.py` lines 431-447 produce it. -/
def asciiBytes (s : String) : List Nat :=
  s.toList.map Char.toNat

/-- Association-list lookup with decidable key equality, modelling the
Python `dict[key]` / `key in dict` pair on the literal dictionaries of the
configuration setters. -/
def assoc {α β : Type} [DecidableEq α] : List (α × β) → α → Option β
  | [], _ => none
  | (k, v) :: rest, key => if key = k then some v else assoc rest key

/-- The `Command.send` method of `p1255.py` lines 466-471, viewed by the
bytes that reach the connection: with no socket the command is only
hex-dumped locally, so nothing is transmitted; with a socket the whole
byte sequence is sent. -/
def command_send (sock : Option Unit) (cmd : List Nat) : List Nat :=
  match sock with
  | none => []
  | some _ => cmd

/-- Invalid-parameter errors of the configuration setters of `p1255.py`;
each `ValueError` message names the accepted set, carried here as the
constructor argument. -/
inductive SetterError where
  | invalidCoupling (accepted : List String)
  | invalidMode (accepted : List String)
  | invalidFlank (accepted : List String)
  | invalidChannel (accepted : List Nat)
  | invalidTriggerType (accepted : List String)
  | invalidLevel
  | invalidProbeRate (accepted : List Nat)
  | invalidVoltbase (accepted : List ℚ)
  | invalidPort (port : Nat)
deriving Repr, DecidableEq

/-- The bytes of a setter run that actually leave the encoder towards the
connection: the Python setters raise `ValueError` before building or
sending the command, so an error carries no bytes. -/
def emitted : Except SetterError (List Nat) → List Nat
  | .ok bs => bs
  | .error _ => []

/-- Dictionary `COUPLING_MAP` of `set_trigger_configuration` (`p1255.py`
lines 111-116). -/
def TRIGGER_COUPLING_MAP : List (String × List Nat) :=
  [("DC", [0x00]), ("AC", [0x01]), ("HF", [0x02]), ("LF", [0x03])]

/-- Dictionary `MODE_MAP` of `set_trigger_configuration` (`p1255.py`
lines 117-121). -/
def TRIGGER_MODE_MAP : List (String × List Nat) :=
  [("AUTO", [0x00]), ("NORM", [0x01]), ("SINGLE", [0x02])]

/-- Dictionary `FLANK_MAP` of `set_trigger_configuration` (`p1255.py`
lines 122-125). -/
def TRIGGER_FLANK_MAP : List (String × List Nat) :=
  [("RISING", [0x00]), ("FALLING", [0x01])]

/-- Dictionary `CHANNEL_MAP` of both setters (`p1255.py` lines 107-110 and
214-217). -/
def CHANNEL_MAP : List (Nat × List Nat) :=
  [(1, [0x00]), (2, [0x01])]

/-- Dictionary `TRIGGER_TYPE_MAP_ASCII` of `set_trigger_configuration`
(`p1255.py` lines 103-106). -/
def TRIGGER_TYPE_MAP_ASCII : List (String × List Nat) :=
  [("SINGLE", asciiBytes "s"), ("ALTERNATE", asciiBytes "a")]

/-- Dictionary `PROBERATE_MAP` of `set_channel_configuration` (`p1255.py`
lines 218-223). -/
def PROBERATE_MAP : List (Nat × List Nat) :=
  [(1, [0x00]), (10, [0x01]), (100, [0x02]), (1000, [0x03])]

/-- Dictionary `COUPLING_MAP` of `set_channel_configuration` (`p1255.py`
lines 224-228). -/
def CHANNEL_COUPLING_MAP : List (String × List Nat) :=
  [("DC", [0x00]), ("AC", [0x01]), ("GND", [0x02])]

/-- Dictionary `VOLTBASE_MAP` of `set_channel_configuration` (`p1255.py`
lines 229-242). -/
def VOLTBASE_MAP : List (ℚ × List Nat) :=
  [(2/1000, [0x00]), (5/1000, [0x01]), (10/1000, [0x02]), (20/1000, [0x03]),
   (50/1000, [0x04]), (100/1000, [0x05]), (200/1000, [0x06]), (500/1000, [0x07]),
   (1, [0x08]), (2, [0x09]), (5, [0x0A]), (10, [0x0B])]

/-- The `P1255.set_trigger_configuration` method of `p1255.py` (lines
77-177): validate coupling, mode, flank, channel and trigger type against
their dictionaries and the level against [-7, 5], in the source's order,
raising before any byte is built or sent; on success assemble the ":M"
modify frame (declared length 0x2e) with one "MTR" sub-command per field
and the level as a clamped, rounded, big-endian signed 32-bit step count,
and hand it to `Command.send`.  The result is the byte sequence
transmitted to the connection. -/
def set_trigger_configuration (sock : Option Unit) (coupling mode flank : String)
    (level : ℚ) (channel : Nat) (type : String) : Except SetterError (List Nat) :=
  match assoc TRIGGER_COUPLING_MAP coupling with
  | none => .error (.invalidCoupling (TRIGGER_COUPLING_MAP.map Prod.fst))
  | some couplingB =>
  match assoc TRIGGER_MODE_MAP mode with
  | none => .error (.invalidMode (TRIGGER_MODE_MAP.map Prod.fst))
  | some modeB =>
  match assoc TRIGGER_FLANK_MAP flank with
  | none => .error (.invalidFlank (TRIGGER_FLANK_MAP.map Prod.fst))
  | some flankB =>
  match assoc CHANNEL_MAP channel with
  | none => .error (.invalidChannel (CHANNEL_MAP.map Prod.fst))
  | some channelB =>
  match assoc TRIGGER_TYPE_MAP_ASCII type with
  | none => .error (.invalidTriggerType (TRIGGER_TYPE_MAP_ASCII.map Prod.fst))
  | some typeB =>
  if ¬((-7 : ℚ) ≤ level ∧ level ≤ 5) then .error .invalidLevel
  else
    let rep := asciiBytes "MTR" ++ typeB ++ channelB
    let steps := max (-(2 ^ 31)) (min (pyRound (level / (4/100))) (2 ^ 31 - 1))
    let cmd := asciiBytes ":M" ++ [0x00, 0x00, 0x00, 0x2e]
      ++ rep ++ [0x02] ++ couplingB
      ++ rep ++ [0x03] ++ modeB
      ++ rep ++ [0x04] ++ [0x00, 0x00, 0x00, 0x00]
      ++ rep ++ [0x05] ++ flankB
      ++ rep ++ [0x06] ++ int32be steps
    .ok (command_send sock cmd)

/-- The `P1255.set_channel_configuration` method of `p1255.py` (lines
194-268): validate channel, probe rate, coupling and voltbase against
their dictionaries, in the source's order, raising before any byte is
built or sent; on success assemble the ":M" modify frame (declared length
6) with the "MCH" marker and the "p"/"c"/"v" sub-fields and hand it to
`Command.send`. -/
def set_channel_configuration (sock : Option Unit) (channel : Nat) (probe_rate : Nat)
    (coupling : String) (voltbase_V : ℚ) : Except SetterError (List Nat) :=
  match assoc CHANNEL_MAP channel with
  | none => .error (.invalidChannel (CHANNEL_MAP.map Prod.fst))
  | some channelB =>
  match assoc PROBERATE_MAP probe_rate with
  | none => .error (.invalidProbeRate (PROBERATE_MAP.map Prod.fst))
  | some probeB =>
  match assoc CHANNEL_COUPLING_MAP coupling with
  | none => .error (.invalidCoupling (CHANNEL_COUPLING_MAP.map Prod.fst))
  | some couplingB =>
  match assoc VOLTBASE_MAP voltbase_V with
  | none => .error (.invalidVoltbase (VOLTBASE_MAP.map Prod.fst))
  | some voltB =>
    let cmd := asciiBytes ":M" ++ [0x00, 0x00, 0x00, 0x06] ++ asciiBytes "MCH"
      ++ channelB ++ asciiBytes "p" ++ probeB ++ asciiBytes "c" ++ couplingB
      ++ asciiBytes "v" ++ voltB
    .ok (command_send sock cmd)

/-- An IPv4 address as its four octets.  The setters receive it already
parsed: `ipaddress.IPv4Address` string parsing is not modelled, its packed
form is exactly these four bytes. -/
abbrev IPv4 := Fin 256 × Fin 256 × Fin 256 × Fin 256

/-- The `packed` bytes of an IPv4 address. -/
def ipv4Bytes (a : IPv4) : List Nat :=
  [a.1, a.2.1, a.2.2.1, a.2.2.2]

/-- Python's `port.to_bytes(4, byteorder="big")` for `port < 2 ^ 32`. -/
def port_to_bytes_be (port : Nat) : List Nat :=
  [port / 2 ^ 24 % 256, port / 2 ^ 16 % 256, port / 2 ^ 8 % 256, port % 256]

/-- The `P1255.set_ip_configuration` method of `p1255.py` (lines 271-313):
with no socket it returns `None` immediately; otherwise the port must lie
in (0, 4000], raising before any byte is built or sent, and on success the
":M" modify frame (declared length 0x13) carries "MNT" followed by the
packed IP, the 4-byte big-endian port, the packed subnet mask and the
packed gateway. -/
def set_ip_configuration (sock : Option Unit) (ip : IPv4) (port : Nat)
    (subnet gateway : IPv4) : Option (Except SetterError (List Nat)) :=
  match sock with
  | none => none
  | some _ =>
    if ¬(0 < port ∧ port ≤ 4000) then some (.error (.invalidPort port))
    else
      let cmd := asciiBytes ":M" ++ [0x00, 0x00, 0x00, 0x13] ++ asciiBytes "MNT"
        ++ ipv4Bytes ip ++ port_to_bytes_be port ++ ipv4Bytes subnet ++ ipv4Bytes gateway
      some (.ok (command_send (some ()) cmd))

/-! Helper lemmas shared between the claim theorems. -/

theorem splitLoop_length (k len : Nat) : ∀ buf : List Nat, (splitLoop k len buf).length = k := by
  induction k with
  | zero => intro buf; rfl
  | succ k ih => intro buf; simp [splitLoop, ih]

theorem splitLoop_mem_length (k len : Nat) :
    ∀ buf : List Nat, k * len ≤ buf.length → ∀ c ∈ splitLoop k len buf, c.length = len := by
  induction k with
  | zero => intro buf _ c hc; simp [splitLoop] at hc
  | succ k ih =>
    intro buf hle c hc
    simp only [splitLoop, List.mem_cons] at hc
    rcases hc with rfl | hc
    · have hlen : len ≤ buf.length := by
        rw [Nat.succ_mul] at hle; omega
      rw [List.length_take]
      exact Nat.min_eq_left hlen
    · exact ih (buf.drop len) (by rw [List.length_drop]; rw [Nat.succ_mul] at hle; omega) c hc

theorem splitLoop_flatten (k len : Nat) :
    ∀ buf : List Nat, buf.length = k * len → (splitLoop k len buf).flatten = buf := by
  induction k with
  | zero =>
    intro buf h
    rw [Nat.zero_mul] at h
    simp [splitLoop, List.length_eq_zero.mp h]
  | succ k ih =>
    intro buf h
    simp only [splitLoop, List.flatten_cons]
    rw [ih (buf.drop len) (by rw [List.length_drop, Nat.succ_mul] at *; omega)]
    exact List.take_append_drop len buf

/-! Claim theorems. -/

/-- C1: for every raw 16-bit sample value, voltscale and offset, the scaling
engine produces exactly the two mode formulas — normal capture
`volts = raw * voltscale / 25` and `screen = (raw + offset) / 25`, deep
capture `volts = voltscale * (raw / 256 - offset) / 25` and
`screen = (raw / 256) / 25`; in particular normal mode with raw 128 and
voltscale 1.0 yields 5.12 volts. -/
theorem scaling_engine_mode_formulas (raw off : ℤ) (scale : ℚ) :
    normal_to_volt raw scale off = raw * scale / 25 ∧
    normal_to_screen raw scale off = ((raw : ℚ) + off) / 25 ∧
    deep_to_volt raw scale off = scale * ((raw : ℚ) / 256 - off) / 25 ∧
    deep_to_screen raw scale off = ((raw : ℚ) / 256) / 25 ∧
    normal_to_volt 128 1 off = 5.12 := by
  refine ⟨rfl, rfl, by norm_num [deep_to_volt], by norm_num [deep_to_screen],
    by norm_num [normal_to_volt]⟩

/-- C7: for every timescale index `i`, `calc_timescale i` equals
`15 * mantissa * 10 ^ exponent * 1e-9` with `exponent = i / 3` and mantissa
1, 2 or 5 according to `i % 3`; in particular `calc_timescale 0 = 1.5e-8`,
`calc_timescale 1 = 3.0e-8` and `calc_timescale 3 = 1.5e-7`. -/
theorem calc_timescale_formula (i : Nat) :
    calc_timescale i
      = 15 * (if i % 3 = 0 then (1 : ℚ) else if i % 3 = 1 then 2 else 5) * 10 ^ (i / 3) / 10 ^ 9 ∧
    calc_timescale 0 = 1.5e-8 ∧ calc_timescale 1 = 3.0e-8 ∧ calc_timescale 3 = 1.5e-7 := by
  refine ⟨?_, ?_, ?_, ?_⟩
  · simp only [calc_timescale, timescaleMant]
    ring
  · norm_num [calc_timescale, timescaleMant]
  · norm_num [calc_timescale, timescaleMant]
  · norm_num [calc_timescale, timescaleMant]

/-- C3: for every voltscale index 0..11 the decoder resolves exactly the
table value (0.002 up to 10 volts per division), and for every index from
12 upwards the lookup fails (Python raises `IndexError`) instead of
clamping or extrapolating. -/
theorem voltscale_index_table :
    voltscale_of_index 0 = some 0.002 ∧ voltscale_of_index 1 = some 0.005 ∧
    voltscale_of_index 2 = some 0.010 ∧ voltscale_of_index 3 = some 0.020 ∧
    voltscale_of_index 4 = some 0.050 ∧ voltscale_of_index 5 = some 0.100 ∧
    voltscale_of_index 6 = some 0.200 ∧ voltscale_of_index 7 = some 0.500 ∧
    voltscale_of_index 8 = some 1 ∧ voltscale_of_index 9 = some 2 ∧
    voltscale_of_index 10 = some 5 ∧ voltscale_of_index 11 = some 10 ∧
    ∀ i : Nat, 12 ≤ i → voltscale_of_index i = none := by
  refine ⟨?_, ?_, ?_, ?_, ?_, ?_, ?_, ?_, ?_, ?_, ?_, ?_, ?_⟩
  · norm_num [voltscale_of_index, VOLTBASELIST]
  · norm_num [voltscale_of_index, VOLTBASELIST]
  · norm_num [voltscale_of_index, VOLTBASELIST]
  · norm_num [voltscale_of_index, VOLTBASELIST]
  · norm_num [voltscale_of_index, VOLTBASELIST]
  · norm_num [voltscale_of_index, VOLTBASELIST]
  · norm_num [voltscale_of_index, VOLTBASELIST]
  · norm_num [voltscale_of_index, VOLTBASELIST]
  · norm_num [voltscale_of_index, VOLTBASELIST]
  · norm_num [voltscale_of_index, VOLTBASELIST]
  · norm_num [voltscale_of_index, VOLTBASELIST]
  · norm_num [voltscale_of_index, VOLTBASELIST]
  · intro i h
    unfold voltscale_of_index
    apply List.getElem?_eq_none
    simp only [VOLTBASELIST]
    simp
    omega

/-- Witness for C3 at the concrete out-of-range index 12. -/
theorem voltscale_index_table_witness : voltscale_of_index 12 = none :=
  voltscale_index_table.2.2.2.2.2.2.2.2.2.2.2.2 12 (by norm_num)

/-- C9: `Data.pop` is total and exact on the byte buffer — too short a
buffer raises the `ValueError` (leaving the buffer unchanged, since the
error precedes the reassignment), otherwise exactly the first `n` bytes
come off and the remainder has length smaller by exactly `n`; hence a
reply shorter than the 62-byte fixed header layout makes `interpret_header`
fail instead of producing truncated header fields. -/
theorem pop_total_and_exact (buf : List Nat) (n : Nat) :
    (buf.length < n → pop buf n = .error "Not enough data to pop.") ∧
    (n ≤ buf.length →
      pop buf n = .ok (buf.take n, buf.drop n) ∧
      (buf.take n).length = n ∧
      (buf.drop n).length = buf.length - n ∧
      buf.take n ++ buf.drop n = buf) ∧
    (buf.length < 62 → interpret_header buf = .error "Not enough data to pop.") := by
  refine ⟨?_, ?_, ?_⟩
  · intro h
    simp [pop, h]
  · intro h
    refine ⟨?_, ?_, ?_, List.take_append_drop n buf⟩
    · simp only [pop]
      rw [if_neg (by omega)]
    · rw [List.length_take]
      omega
    · rw [List.length_drop]
  · intro hlen
    by_cases h1 : buf.length < 8
    · simp [interpret_header, pop, h1]
    · by_cases h2 : buf.length - 8 < 10
      · simp [interpret_header, pop, h1, h2]
      · by_cases h3 : buf.length - 18 < 12
        · simp [interpret_header, pop, h1, h2, h3]
        · by_cases h4 : buf.length - 30 < 19
          · simp [interpret_header, pop, h1, h2, h3, h4]
          · by_cases h5 : buf.length - 49 = 0
            · simp [interpret_header, pop, h1, h2, h3, h4, h5]
            · by_cases h6 : buf.length - 50 < 12
              · simp [interpret_header, pop, h1, h2, h3, h4, h5, h6]
              · omega

/-- Witness for C9 at concrete buffers. -/
theorem pop_total_and_exact_witness :
    pop [1, 2, 3] 5 = .error "Not enough data to pop." ∧
    pop [1, 2, 3] 2 = .ok ([1, 2], [3]) ∧
    interpret_header [0, 1, 2] = .error "Not enough data to pop." :=
  ⟨(pop_total_and_exact [1, 2, 3] 5).1 (by norm_num),
   ((pop_total_and_exact [1, 2, 3] 2).2.1 (by norm_num)).1,
   (pop_total_and_exact [0, 1, 2] 62).2.2 (by norm_num)⟩

/-- C2: for a reply whose post-header byte length is `L` and whose channel
bitmap has popcount `n > 0`, splitting into channels fails with the
protocol error exactly when `L % n ≠ 0`; no truncated channel list exists
on failure (the error carries no channels), and on success there are
exactly `n` regions of exactly `L / n` bytes each whose in-order
concatenation is the original channel data. -/
theorem split_channels_divides_evenly (buf : List Nat) (n : Nat) (hn : 0 < n) :
    (buf.length % n ≠ 0 →
      split_channels buf n = .error "Data length is not a multiple of the number of channels.") ∧
    (buf.length % n = 0 →
      split_channels buf n = .ok (splitLoop n (buf.length / n) buf) ∧
      (splitLoop n (buf.length / n) buf).length = n ∧
      (∀ c ∈ splitLoop n (buf.length / n) buf, c.length = buf.length / n) ∧
      (splitLoop n (buf.length / n) buf).flatten = buf) := by
  constructor
  · intro h
    simp only [split_channels]
    rw [if_neg (by omega), if_pos h]
  · intro h
    refine ⟨?_, splitLoop_length n (buf.length / n) buf, ?_, ?_⟩
    · simp only [split_channels]
      rw [if_neg (by omega), if_neg (by omega)]
    · apply splitLoop_mem_length
      rw [Nat.mul_comm]
      exact Nat.div_mul_le_self buf.length n
    · apply splitLoop_flatten
      exact (Nat.mul_div_cancel' (Nat.dvd_of_mod_eq_zero h)).symm

/-- Witness for C2 at concrete buffers with two channels. -/
theorem split_channels_divides_evenly_witness :
    split_channels [0, 0, 0, 0, 0] 2
      = .error "Data length is not a multiple of the number of channels." ∧
    split_channels [1, 2, 3, 4] 2 = .ok [[1, 2], [3, 4]] :=
  ⟨(split_channels_divides_evenly [0, 0, 0, 0, 0] 2 (by norm_num)).1 (by norm_num),
   ((split_channels_divides_evenly [1, 2, 3, 4] 2 (by norm_num)).2 (by norm_num)).1⟩

theorem receive_scpi_loop_spec :
    ∀ (input : List Char) (acc res rest : List Char),
    receive_scpi_loop acc input = some (res, rest) →
    res ∈ SCPI_RESPONSES ∧
    (∃ consumed, consumed ≠ [] ∧ input = consumed ++ rest ∧ res = acc ++ consumed) ∧
    ∀ k, acc.length < k → k < res.length → res.take k ∉ SCPI_RESPONSES := by
  intro input
  induction input with
  | nil => intro acc res rest h; cases h
  | cons c cs ih =>
    intro acc res rest h
    simp only [receive_scpi_loop] at h
    split_ifs at h with hmem
    · cases h
      refine ⟨hmem, ⟨[c], by simp, rfl, rfl⟩, ?_⟩
      intro k hk1 hk2
      simp at hk2
      omega
    · obtain ⟨h1, ⟨consumed, hc1, hc2, hc3⟩, h3⟩ := ih (acc ++ [c]) res rest h
      refine ⟨h1, ⟨[c] ++ consumed, by simp, by simp [hc2], by simp [hc3]⟩, ?_⟩
      intro k hk1 hk2
      rcases Nat.lt_or_ge (acc.length + 1) k with hgt | hge
      · exact h3 k (by simpa using hgt) hk2
      · have hk : k = acc.length + 1 := by omega
        subst hk
        have htake : res.take (acc.length + 1) = acc ++ [c] := by
          rw [hc3, List.take_append_of_le_length (by simp)]
          simp [List.take_append]
        rw [htake]
        exact hmem

/-- C5: the SCPI response reader accumulates one byte at a time and returns
the accumulator the first time it exactly equals a member of the fixed
token set, never on a proper non-empty strict prefix of the result; in
particular the streams starting "10K" and "100K" return those tokens
exactly, consuming nothing further. -/
theorem receive_scpi_exact_token (input res rest extra : List Char) :
    (receive_scpi_response input = some (res, rest) →
      res ∈ SCPI_RESPONSES ∧ input = res ++ rest ∧
      ∀ k, 0 < k → k < res.length → res.take k ∉ SCPI_RESPONSES) ∧
    receive_scpi_response ("10K".toList ++ extra) = some ("10K".toList, extra) ∧
    receive_scpi_response ("100K".toList ++ extra) = some ("100K".toList, extra) := by
  refine ⟨?_, rfl, rfl⟩
  intro h
  obtain ⟨h1, ⟨consumed, hc1, hc2, hc3⟩, h3⟩ := receive_scpi_loop_spec input [] res rest h
  simp only [List.nil_append] at hc3
  subst hc3
  exact ⟨h1, hc2, fun k hk1 hk2 => h3 k (by simpa using hk1) hk2⟩

/-- Witness for C5 at the concrete stream "10K". -/
theorem receive_scpi_exact_token_witness :
    "10K".toList ∈ SCPI_RESPONSES ∧ "10K".toList = "10K".toList ++ ([] : List Char) ∧
    ∀ k, 0 < k → k < "10K".toList.length → "10K".toList.take k ∉ SCPI_RESPONSES :=
  (receive_scpi_exact_token "10K".toList "10K".toList [] []).1 rfl

theorem pyRound_nearest (q : ℚ) : |(pyRound q : ℚ) - q| ≤ 1/2 := by
  have hf : (⌊q⌋ : ℚ) ≤ q := Int.floor_le q
  have hf1 : q < ⌊q⌋ + 1 := Int.lt_floor_add_one q
  simp only [pyRound]
  split_ifs with h1 h2 h3 <;>
    (rw [abs_le]; push_cast; constructor <;> linarith)

theorem trigger_clamp_max_min (v : ℚ) : trigger_clamp v = max (-7) (min v 5) := by
  unfold trigger_clamp
  split_ifs with h1 h2
  · rw [min_eq_left (by linarith), max_eq_left (by linarith)]
  · rw [min_eq_right (by linarith), max_eq_right (by norm_num)]
  · rw [min_eq_left (by linarith), max_eq_right (by linarith)]

theorem trigger_clamp_eq_self (v : ℚ) (h1 : -7 ≤ v) (h2 : v ≤ 5) : trigger_clamp v = v := by
  unfold trigger_clamp
  split_ifs <;> linarith

theorem trigger_clamp_bounds (v : ℚ) : -7 ≤ trigger_clamp v ∧ trigger_clamp v ≤ 5 := by
  unfold trigger_clamp
  split_ifs <;> constructor <;> linarith

/-- C6: the trigger-voltage encoder clamps its input to [-7, +5], converts
the clamped value to 0.04-volt steps rounded to the nearest integer, and
encodes that integer as a big-endian signed 32-bit value; consequently
inputs at or beyond either boundary encode like the boundary itself, in
particular -8 like -7 and 6 like 5. -/
theorem trigger_voltage_clamp_round_encode (v : ℚ) :
    trigger_voltage v = trigger_voltage (max (-7) (min v 5)) ∧
    (v ≤ -7 → trigger_voltage v = trigger_voltage (-7)) ∧
    (5 ≤ v → trigger_voltage v = trigger_voltage 5) ∧
    trigger_voltage (-8) = trigger_voltage (-7) ∧
    trigger_voltage 6 = trigger_voltage 5 ∧
    (-7 ≤ v → v ≤ 5 →
      trigger_voltage v = .ok (int32be (pyRound (v / (4/100)))) ∧
      |(pyRound (v / (4/100)) : ℚ) - v / (4/100)| ≤ 1/2) := by
  have hclamp2 : ∀ w : ℚ, trigger_clamp (trigger_clamp w) = trigger_clamp w := by
    intro w
    exact trigger_clamp_eq_self _ (trigger_clamp_bounds w).1 (trigger_clamp_bounds w).2
  have hcongr : ∀ a b : ℚ, trigger_clamp a = trigger_clamp b →
      trigger_voltage a = trigger_voltage b := by
    intro a b hab
    unfold trigger_voltage
    rw [hab]
  have hlow : ∀ w : ℚ, w ≤ -7 → trigger_voltage w = trigger_voltage (-7) := by
    intro w hw
    apply hcongr
    rw [trigger_clamp_eq_self (-7) (by norm_num) (by norm_num)]
    unfold trigger_clamp
    split_ifs <;> linarith
  have hhigh : ∀ w : ℚ, 5 ≤ w → trigger_voltage w = trigger_voltage 5 := by
    intro w hw
    apply hcongr
    rw [trigger_clamp_eq_self 5 (by norm_num) (by norm_num)]
    unfold trigger_clamp
    split_ifs <;> linarith
  refine ⟨?_, hlow v, hhigh v, hlow (-8) (by norm_num), hhigh 6 (by norm_num), ?_⟩
  · apply hcongr
    rw [← trigger_clamp_max_min, hclamp2]
  · intro h1 h2
    refine ⟨?_, pyRound_nearest (v / (4/100))⟩
    have hc : trigger_clamp v = v := trigger_clamp_eq_self v h1 h2
    have hb := pyRound_nearest (v / (4/100))
    rw [abs_le] at hb
    have hlo : (-176 : ℚ) ≤ (pyRound (v / (4/100)) : ℚ) := by
      have hx : (-175 : ℚ) ≤ v / (4/100) := by linarith
      linarith [hb.1]
    have hhi : (pyRound (v / (4/100)) : ℚ) ≤ 126 := by
      have hx : v / (4/100) ≤ (125 : ℚ) := by linarith
      linarith [hb.2]
    have hlo2 : (-176 : ℤ) ≤ pyRound (v / (4/100)) := by exact_mod_cast hlo
    have hhi2 : pyRound (v / (4/100)) ≤ (126 : ℤ) := by exact_mod_cast hhi
    unfold trigger_voltage
    rw [hc]
    unfold pack_int32be
    rw [if_neg]
    push_neg
    constructor <;> [linarith; linarith]

/-- Witness for C6 at the concrete boundary inputs -8, 6 and the in-range
input 0. -/
theorem trigger_voltage_clamp_round_encode_witness :
    trigger_voltage (-8) = trigger_voltage (-7) ∧
    trigger_voltage 6 = trigger_voltage 5 ∧
    (trigger_voltage 0 = .ok (int32be (pyRound ((0 : ℚ) / (4/100)))) ∧
      |(pyRound ((0 : ℚ) / (4/100)) : ℚ) - (0 : ℚ) / (4/100)| ≤ 1/2) :=
  ⟨(trigger_voltage_clamp_round_encode (-8)).2.1 (by norm_num),
   (trigger_voltage_clamp_round_encode 6).2.2.1 (by norm_num),
   (trigger_voltage_clamp_round_encode 0).2.2.2.2.2 (by norm_num) (by norm_num)⟩

theorem capture_loop_ok_spec :
    ∀ (chunks : List (List Nat)) (length read : Nat) (buffer result : List Nat),
    buffer.length = read → read ≤ length →
    capture_loop length read buffer chunks = .ok result →
    result.length = length ∧ ∃ t, result = buffer ++ t := by
  intro chunks
  induction chunks with
  | nil =>
    intro length read buffer result hbl hrl h
    simp only [capture_loop] at h
    split_ifs at h with hle
    · cases h
      exact ⟨by omega, [], by simp⟩
  | cons c rest ih =>
    intro length read buffer result hbl hrl h
    simp only [capture_loop] at h
    split_ifs at h with hle hz
    · cases h
      exact ⟨by omega, [], by simp⟩
    · obtain ⟨hlen, t, ht⟩ := ih length (read + (c.take (length - read)).length)
        (buffer ++ c.take (length - read)) result (by simp [hbl])
        (by rw [List.length_take]; omega) h
      exact ⟨hlen, c.take (length - read) ++ t, by simp [ht]⟩

theorem capture_loop_err_msg :
    ∀ (chunks : List (List Nat)) (length read : Nat) (buffer : List Nat) (msg : String),
    capture_loop length read buffer chunks = .error msg →
    msg = "Socket connection lost during data capture." ∨ msg = "timed out" := by
  intro chunks
  induction chunks with
  | nil =>
    intro length read buffer msg h
    simp only [capture_loop] at h
    split_ifs at h with hle
    all_goals (cases h; exact Or.inr rfl)
  | cons c rest ih =>
    intro length read buffer msg h
    simp only [capture_loop] at h
    split_ifs at h with hle hz
    all_goals first
      | (cases h; exact Or.inl rfl)
      | cases h
      | exact ih length (read + (c.take (length - read)).length)
          (buffer ++ c.take (length - read)) msg h

/-- C4 counterexample: the connection-lost failure does not report bytes
received versus expected.  Closing the connection after 50 of 112 bytes
and closing it after 22 of 112 bytes raise the very same error value, the
fixed message of `p1255.py` line 67, so the error reports no received
count (the claim requires it to report received 50, expected 112 in the
first case). -/
theorem capture_closure_error_reports_no_counts :
    capture 100 0 [List.replicate 48 7, []]
      = .error "Socket connection lost during data capture." ∧
    capture 100 0 [List.replicate 20 7, []]
      = capture 100 0 [List.replicate 48 7, []] :=
  ⟨rfl, rfl⟩

/-- C4 (amended): for every declared little-endian 16-bit length
`b0 + 256 * b1`, the frame reader reads exactly that many bytes plus 12
in total however the transport fragments delivery, and the two
already-read length bytes stay as the first two bytes of the returned
buffer; a connection closing early fails with the connection-lost
`ConnectionError`, whose message is fixed and reports no byte counts.
Concretely, declared length 100 read in chunks of 40/40/32 bytes totals
exactly 112, and closure after 50 of 112 bytes fails with the
connection-lost error. -/
theorem capture_reads_declared_length (b0 b1 : Nat) (chunks : List (List Nat)) :
    (∀ result, capture b0 b1 chunks = .ok result →
      result.length = b0 + 256 * b1 + 12 ∧ result.take 2 = [b0, b1]) ∧
    (∀ msg, capture b0 b1 chunks = .error msg →
      msg = "Socket connection lost during data capture." ∨ msg = "timed out") ∧
    capture 100 0 [List.replicate 40 7, List.replicate 40 8, List.replicate 32 9]
      = .ok ([100, 0] ++ List.replicate 40 7 ++ List.replicate 40 8 ++ List.replicate 30 9) ∧
    capture 100 0 [List.replicate 48 7, []]
      = .error "Socket connection lost during data capture." := by
  refine ⟨?_, ?_, rfl, rfl⟩
  · intro result h
    obtain ⟨hlen, t, ht⟩ := capture_loop_ok_spec chunks (b0 + 256 * b1 + 12) 2 [b0, b1]
      result (by simp) (by omega) h
    refine ⟨hlen, ?_⟩
    rw [ht]
    rfl
  · intro msg h
    exact capture_loop_err_msg chunks (b0 + 256 * b1 + 12) 2 [b0, b1] msg h

/-- Witness for C4 at the concrete fragmentations of the specification. -/
theorem capture_reads_declared_length_witness :
    (([100, 0] ++ List.replicate 40 7 ++ List.replicate 40 8 ++ List.replicate 30 9 :
        List Nat).length = 100 + 256 * 0 + 12 ∧
      ([100, 0] ++ List.replicate 40 7 ++ List.replicate 40 8 ++ List.replicate 30 9 :
        List Nat).take 2 = [100, 0]) ∧
    ("Socket connection lost during data capture."
        = "Socket connection lost during data capture." ∨
      "Socket connection lost during data capture." = "timed out") :=
  ⟨(capture_reads_declared_length 100 0
      [List.replicate 40 7, List.replicate 40 8, List.replicate 32 9]).1 _ rfl,
   (capture_reads_declared_length 100 0 [List.replicate 48 7, []]).2.1 _ rfl⟩

theorem assoc_eq_none_iff {α β : Type} [DecidableEq α] (l : List (α × β)) (k : α) :
    assoc l k = none ↔ k ∉ l.map Prod.fst := by
  induction l with
  | nil => simp [assoc]
  | cons p rest ih =>
    simp only [assoc, List.map_cons, List.mem_cons]
    split_ifs with hk
    · simp [hk]
    · simp [ih, hk]

theorem assoc_mem {α β : Type} [DecidableEq α] (l : List (α × β)) (k : α)
    (h : k ∈ l.map Prod.fst) : ∃ v, assoc l k = some v := by
  rcases ho : assoc l k with _ | v
  · rw [assoc_eq_none_iff] at ho
    exact absurd h ho
  · exact ⟨v, rfl⟩

/-- C8: every public configuration setter validates each argument against
its enumerated table or range before any byte is emitted: an invalid value
yields the invalid-parameter error naming the accepted set, with zero
bytes emitted towards the connection (the error precedes command
construction and `Command.send`, so the connection is untouched).  The
clauses follow the source's validation order; each later clause assumes
the earlier arguments valid. -/
theorem setters_validate_before_send (sock : Option Unit)
    (coupling mode flank type ccoupling : String) (level voltbase : ℚ)
    (channel probe_rate port : Nat) (ip subnet gateway : IPv4) :
    (coupling ∉ TRIGGER_COUPLING_MAP.map Prod.fst →
      set_trigger_configuration sock coupling mode flank level channel type
        = .error (.invalidCoupling ["DC", "AC", "HF", "LF"]) ∧
      emitted (set_trigger_configuration sock coupling mode flank level channel type) = []) ∧
    (coupling ∈ TRIGGER_COUPLING_MAP.map Prod.fst →
      mode ∉ TRIGGER_MODE_MAP.map Prod.fst →
      set_trigger_configuration sock coupling mode flank level channel type
        = .error (.invalidMode ["AUTO", "NORM", "SINGLE"]) ∧
      emitted (set_trigger_configuration sock coupling mode flank level channel type) = []) ∧
    (coupling ∈ TRIGGER_COUPLING_MAP.map Prod.fst →
      mode ∈ TRIGGER_MODE_MAP.map Prod.fst →
      flank ∉ TRIGGER_FLANK_MAP.map Prod.fst →
      set_trigger_configuration sock coupling mode flank level channel type
        = .error (.invalidFlank ["RISING", "FALLING"]) ∧
      emitted (set_trigger_configuration sock coupling mode flank level channel type) = []) ∧
    (coupling ∈ TRIGGER_COUPLING_MAP.map Prod.fst →
      mode ∈ TRIGGER_MODE_MAP.map Prod.fst →
      flank ∈ TRIGGER_FLANK_MAP.map Prod.fst →
      channel ∉ CHANNEL_MAP.map Prod.fst →
      set_trigger_configuration sock coupling mode flank level channel type
        = .error (.invalidChannel [1, 2]) ∧
      emitted (set_trigger_configuration sock coupling mode flank level channel type) = []) ∧
    (coupling ∈ TRIGGER_COUPLING_MAP.map Prod.fst →
      mode ∈ TRIGGER_MODE_MAP.map Prod.fst →
      flank ∈ TRIGGER_FLANK_MAP.map Prod.fst →
      channel ∈ CHANNEL_MAP.map Prod.fst →
      type ∉ TRIGGER_TYPE_MAP_ASCII.map Prod.fst →
      set_trigger_configuration sock coupling mode flank level channel type
        = .error (.invalidTriggerType ["SINGLE", "ALTERNATE"]) ∧
      emitted (set_trigger_configuration sock coupling mode flank level channel type) = []) ∧
    (coupling ∈ TRIGGER_COUPLING_MAP.map Prod.fst →
      mode ∈ TRIGGER_MODE_MAP.map Prod.fst →
      flank ∈ TRIGGER_FLANK_MAP.map Prod.fst →
      channel ∈ CHANNEL_MAP.map Prod.fst →
      type ∈ TRIGGER_TYPE_MAP_ASCII.map Prod.fst →
      ¬((-7 : ℚ) ≤ level ∧ level ≤ 5) →
      set_trigger_configuration sock coupling mode flank level channel type
        = .error .invalidLevel ∧
      emitted (set_trigger_configuration sock coupling mode flank level channel type) = []) ∧
    (channel ∉ CHANNEL_MAP.map Prod.fst →
      set_channel_configuration sock channel probe_rate ccoupling voltbase
        = .error (.invalidChannel [1, 2]) ∧
      emitted (set_channel_configuration sock channel probe_rate ccoupling voltbase) = []) ∧
    (channel ∈ CHANNEL_MAP.map Prod.fst →
      probe_rate ∉ PROBERATE_MAP.map Prod.fst →
      set_channel_configuration sock channel probe_rate ccoupling voltbase
        = .error (.invalidProbeRate [1, 10, 100, 1000]) ∧
      emitted (set_channel_configuration sock channel probe_rate ccoupling voltbase) = []) ∧
    (channel ∈ CHANNEL_MAP.map Prod.fst →
      probe_rate ∈ PROBERATE_MAP.map Prod.fst →
      ccoupling ∉ CHANNEL_COUPLING_MAP.map Prod.fst →
      set_channel_configuration sock channel probe_rate ccoupling voltbase
        = .error (.invalidCoupling ["DC", "AC", "GND"]) ∧
      emitted (set_channel_configuration sock channel probe_rate ccoupling voltbase) = []) ∧
    (channel ∈ CHANNEL_MAP.map Prod.fst →
      probe_rate ∈ PROBERATE_MAP.map Prod.fst →
      ccoupling ∈ CHANNEL_COUPLING_MAP.map Prod.fst →
      voltbase ∉ VOLTBASE_MAP.map Prod.fst →
      set_channel_configuration sock channel probe_rate ccoupling voltbase
        = .error (.invalidVoltbase
            [2/1000, 5/1000, 10/1000, 20/1000, 50/1000, 100/1000, 200/1000, 500/1000,
             1, 2, 5, 10]) ∧
      emitted (set_channel_configuration sock channel probe_rate ccoupling voltbase) = []) ∧
    (¬(0 < port ∧ port ≤ 4000) →
      set_ip_configuration (some ()) ip port subnet gateway
        = some (.error (.invalidPort port))) := by
  refine ⟨?_, ?_, ?_, ?_, ?_, ?_, ?_, ?_, ?_, ?_, ?_⟩
  · intro h1
    rw [← assoc_eq_none_iff] at h1
    have herr : set_trigger_configuration sock coupling mode flank level channel type
        = .error (.invalidCoupling ["DC", "AC", "HF", "LF"]) := by
      simp only [set_trigger_configuration, h1]
      rfl
    exact ⟨herr, by rw [herr]; rfl⟩
  · intro h1 h2
    obtain ⟨v1, hv1⟩ := assoc_mem _ _ h1
    rw [← assoc_eq_none_iff] at h2
    have herr : set_trigger_configuration sock coupling mode flank level channel type
        = .error (.invalidMode ["AUTO", "NORM", "SINGLE"]) := by
      simp only [set_trigger_configuration, hv1, h2]
      rfl
    exact ⟨herr, by rw [herr]; rfl⟩
  · intro h1 h2 h3
    obtain ⟨v1, hv1⟩ := assoc_mem _ _ h1
    obtain ⟨v2, hv2⟩ := assoc_mem _ _ h2
    rw [← assoc_eq_none_iff] at h3
    have herr : set_trigger_configuration sock coupling mode flank level channel type
        = .error (.invalidFlank ["RISING", "FALLING"]) := by
      simp only [set_trigger_configuration, hv1, hv2, h3]
      rfl
    exact ⟨herr, by rw [herr]; rfl⟩
  · intro h1 h2 h3 h4
    obtain ⟨v1, hv1⟩ := assoc_mem _ _ h1
    obtain ⟨v2, hv2⟩ := assoc_mem _ _ h2
    obtain ⟨v3, hv3⟩ := assoc_mem _ _ h3
    rw [← assoc_eq_none_iff] at h4
    have herr : set_trigger_configuration sock coupling mode flank level channel type
        = .error (.invalidChannel [1, 2]) := by
      simp only [set_trigger_configuration, hv1, hv2, hv3, h4]
      rfl
    exact ⟨herr, by rw [herr]; rfl⟩
  · intro h1 h2 h3 h4 h5
    obtain ⟨v1, hv1⟩ := assoc_mem _ _ h1
    obtain ⟨v2, hv2⟩ := assoc_mem _ _ h2
    obtain ⟨v3, hv3⟩ := assoc_mem _ _ h3
    obtain ⟨v4, hv4⟩ := assoc_mem _ _ h4
    rw [← assoc_eq_none_iff] at h5
    have herr : set_trigger_configuration sock coupling mode flank level channel type
        = .error (.invalidTriggerType ["SINGLE", "ALTERNATE"]) := by
      simp only [set_trigger_configuration, hv1, hv2, hv3, hv4, h5]
      rfl
    exact ⟨herr, by rw [herr]; rfl⟩
  · intro h1 h2 h3 h4 h5 h6
    obtain ⟨v1, hv1⟩ := assoc_mem _ _ h1
    obtain ⟨v2, hv2⟩ := assoc_mem _ _ h2
    obtain ⟨v3, hv3⟩ := assoc_mem _ _ h3
    obtain ⟨v4, hv4⟩ := assoc_mem _ _ h4
    obtain ⟨v5, hv5⟩ := assoc_mem _ _ h5
    have herr : set_trigger_configuration sock coupling mode flank level channel type
        = .error .invalidLevel := by
      simp only [set_trigger_configuration, hv1, hv2, hv3, hv4, hv5]
      rw [if_pos h6]
    exact ⟨herr, by rw [herr]; rfl⟩
  · intro h1
    rw [← assoc_eq_none_iff] at h1
    have herr : set_channel_configuration sock channel probe_rate ccoupling voltbase
        = .error (.invalidChannel [1, 2]) := by
      simp only [set_channel_configuration, h1]
      rfl
    exact ⟨herr, by rw [herr]; rfl⟩
  · intro h1 h2
    obtain ⟨v1, hv1⟩ := assoc_mem _ _ h1
    rw [← assoc_eq_none_iff] at h2
    have herr : set_channel_configuration sock channel probe_rate ccoupling voltbase
        = .error (.invalidProbeRate [1, 10, 100, 1000]) := by
      simp only [set_channel_configuration, hv1, h2]
      rfl
    exact ⟨herr, by rw [herr]; rfl⟩
  · intro h1 h2 h3
    obtain ⟨v1, hv1⟩ := assoc_mem _ _ h1
    obtain ⟨v2, hv2⟩ := assoc_mem _ _ h2
    rw [← assoc_eq_none_iff] at h3
    have herr : set_channel_configuration sock channel probe_rate ccoupling voltbase
        = .error (.invalidCoupling ["DC", "AC", "GND"]) := by
      simp only [set_channel_configuration, hv1, hv2, h3]
      rfl
    exact ⟨herr, by rw [herr]; rfl⟩
  · intro h1 h2 h3 h4
    obtain ⟨v1, hv1⟩ := assoc_mem _ _ h1
    obtain ⟨v2, hv2⟩ := assoc_mem _ _ h2
    obtain ⟨v3, hv3⟩ := assoc_mem _ _ h3
    rw [← assoc_eq_none_iff] at h4
    have herr : set_channel_configuration sock channel probe_rate ccoupling voltbase
        = .error (.invalidVoltbase
            [2/1000, 5/1000, 10/1000, 20/1000, 50/1000, 100/1000, 200/1000, 500/1000,
             1, 2, 5, 10]) := by
      simp only [set_channel_configuration, hv1, hv2, hv3, h4]
      rfl
    exact ⟨herr, by rw [herr]; rfl⟩
  · intro h1
    simp only [set_ip_configuration]
    rw [if_pos h1]

/-- Witness for C8: one concrete invalid argument per validation clause of
both setters and the network setter. -/
theorem setters_validate_before_send_witness :
    (set_trigger_configuration (some ()) "XX" "AUTO" "RISING" 0 1 "SINGLE"
       = .error (.invalidCoupling ["DC", "AC", "HF", "LF"]) ∧
     emitted (set_trigger_configuration (some ()) "XX" "AUTO" "RISING" 0 1 "SINGLE") = []) ∧
    (set_trigger_configuration (some ()) "DC" "XX" "RISING" 0 1 "SINGLE"
       = .error (.invalidMode ["AUTO", "NORM", "SINGLE"]) ∧
     emitted (set_trigger_configuration (some ()) "DC" "XX" "RISING" 0 1 "SINGLE") = []) ∧
    (set_trigger_configuration (some ()) "DC" "AUTO" "XX" 0 1 "SINGLE"
       = .error (.invalidFlank ["RISING", "FALLING"]) ∧
     emitted (set_trigger_configuration (some ()) "DC" "AUTO" "XX" 0 1 "SINGLE") = []) ∧
    (set_trigger_configuration (some ()) "DC" "AUTO" "RISING" 0 3 "SINGLE"
       = .error (.invalidChannel [1, 2]) ∧
     emitted (set_trigger_configuration (some ()) "DC" "AUTO" "RISING" 0 3 "SINGLE") = []) ∧
    (set_trigger_configuration (some ()) "DC" "AUTO" "RISING" 0 1 "XX"
       = .error (.invalidTriggerType ["SINGLE", "ALTERNATE"]) ∧
     emitted (set_trigger_configuration (some ()) "DC" "AUTO" "RISING" 0 1 "XX") = []) ∧
    (set_trigger_configuration (some ()) "DC" "AUTO" "RISING" 9 1 "SINGLE"
       = .error .invalidLevel ∧
     emitted (set_trigger_configuration (some ()) "DC" "AUTO" "RISING" 9 1 "SINGLE") = []) ∧
    (set_channel_configuration (some ()) 3 1 "DC" 1 = .error (.invalidChannel [1, 2]) ∧
     emitted (set_channel_configuration (some ()) 3 1 "DC" 1) = []) ∧
    (set_channel_configuration (some ()) 1 7 "DC" 1
       = .error (.invalidProbeRate [1, 10, 100, 1000]) ∧
     emitted (set_channel_configuration (some ()) 1 7 "DC" 1) = []) ∧
    (set_channel_configuration (some ()) 1 1 "HF" 1
       = .error (.invalidCoupling ["DC", "AC", "GND"]) ∧
     emitted (set_channel_configuration (some ()) 1 1 "HF" 1) = []) ∧
    (set_channel_configuration (some ()) 1 1 "DC" (3/100)
       = .error (.invalidVoltbase
           [2/1000, 5/1000, 10/1000, 20/1000, 50/1000, 100/1000, 200/1000, 500/1000,
            1, 2, 5, 10]) ∧
     emitted (set_channel_configuration (some ()) 1 1 "DC" (3/100)) = []) ∧
    set_ip_configuration (some ()) ((0, 0, 0, 0) : IPv4) 9999 ((0, 0, 0, 0) : IPv4)
        ((0, 0, 0, 0) : IPv4)
      = some (.error (.invalidPort 9999)) :=
  ⟨(setters_validate_before_send (some ()) "XX" "AUTO" "RISING" "SINGLE" "DC" 0 1 1 1 9999
      (0, 0, 0, 0) (0, 0, 0, 0) (0, 0, 0, 0)).1 (by decide),
   (setters_validate_before_send (some ()) "DC" "XX" "RISING" "SINGLE" "DC" 0 1 1 1 9999
      (0, 0, 0, 0) (0, 0, 0, 0) (0, 0, 0, 0)).2.1 (by decide) (by decide),
   (setters_validate_before_send (some ()) "DC" "AUTO" "XX" "SINGLE" "DC" 0 1 1 1 9999
      (0, 0, 0, 0) (0, 0, 0, 0) (0, 0, 0, 0)).2.2.1 (by decide) (by decide) (by decide),
   (setters_validate_before_send (some ()) "DC" "AUTO" "RISING" "SINGLE" "DC" 0 1 3 1 9999
      (0, 0, 0, 0) (0, 0, 0, 0) (0, 0, 0, 0)).2.2.2.1 (by decide) (by decide) (by decide)
      (by decide),
   (setters_validate_before_send (some ()) "DC" "AUTO" "RISING" "XX" "DC" 0 1 1 1 9999
      (0, 0, 0, 0) (0, 0, 0, 0) (0, 0, 0, 0)).2.2.2.2.1 (by decide) (by decide) (by decide)
      (by decide) (by decide),
   (setters_validate_before_send (some ()) "DC" "AUTO" "RISING" "SINGLE" "DC" 9 1 1 1 9999
      (0, 0, 0, 0) (0, 0, 0, 0) (0, 0, 0, 0)).2.2.2.2.2.1 (by decide) (by decide) (by decide)
      (by decide) (by decide) (by norm_num),
   (setters_validate_before_send (some ()) "DC" "AUTO" "RISING" "SINGLE" "DC" 0 1 3 1 9999
      (0, 0, 0, 0) (0, 0, 0, 0) (0, 0, 0, 0)).2.2.2.2.2.2.1 (by decide),
   (setters_validate_before_send (some ()) "DC" "AUTO" "RISING" "SINGLE" "DC" 0 1 1 7 9999
      (0, 0, 0, 0) (0, 0, 0, 0) (0, 0, 0, 0)).2.2.2.2.2.2.2.1 (by decide) (by decide),
   (setters_validate_before_send (some ()) "DC" "AUTO" "RISING" "SINGLE" "HF" 0 1 1 1 9999
      (0, 0, 0, 0) (0, 0, 0, 0) (0, 0, 0, 0)).2.2.2.2.2.2.2.2.1 (by decide) (by decide)
      (by decide),
   (setters_validate_before_send (some ()) "DC" "AUTO" "RISING" "SINGLE" "DC" 0 (3/100) 1 1 9999
      (0, 0, 0, 0) (0, 0, 0, 0) (0, 0, 0, 0)).2.2.2.2.2.2.2.2.2.1 (by decide) (by decide)
      (by decide) (by norm_num [VOLTBASE_MAP]),
   (setters_validate_before_send (some ()) "DC" "AUTO" "RISING" "SINGLE" "DC" 0 1 1 1 9999
      (0, 0, 0, 0) (0, 0, 0, 0) (0, 0, 0, 0)).2.2.2.2.2.2.2.2.2.2 (by norm_num)⟩

/-- C10: with no socket handle, sending an encoded command transmits zero
bytes and raises no error (the frame is hex-dumped locally instead), so
every configuration setter called with valid parameters on a disconnected
client completes silently with nothing transmitted; the network setter
returns `None` outright. -/
theorem disconnected_send_transmits_nothing
    (cmd : List Nat) (coupling mode flank type ccoupling : String)
    (level voltbase : ℚ) (channel probe_rate port : Nat) (ip subnet gateway : IPv4) :
    command_send none cmd = [] ∧
    (∀ bs, set_trigger_configuration none coupling mode flank level channel type = .ok bs →
      bs = []) ∧
    (∀ bs, set_channel_configuration none channel probe_rate ccoupling voltbase = .ok bs →
      bs = []) ∧
    set_ip_configuration none ip port subnet gateway = none ∧
    set_trigger_configuration none "DC" "AUTO" "RISING" 0 1 "SINGLE" = .ok [] ∧
    set_channel_configuration none 1 1 "DC" 1 = .ok [] := by
  refine ⟨rfl, ?_, ?_, rfl, rfl, ?_⟩
  · intro bs h
    unfold set_trigger_configuration at h
    repeat' split at h
    all_goals simp_all [command_send]
  · intro bs h
    unfold set_channel_configuration at h
    repeat' split at h
    all_goals simp_all [command_send]
  · norm_num [set_channel_configuration, assoc, CHANNEL_MAP, PROBERATE_MAP,
      CHANNEL_COUPLING_MAP, VOLTBASE_MAP, command_send]

/-- Witness for C10: the disconnected trigger setter with valid arguments
transmits nothing. -/
theorem disconnected_send_transmits_nothing_witness : ([] : List Nat) = [] :=
  (disconnected_send_transmits_nothing [1, 2, 3] "DC" "AUTO" "RISING" "SINGLE" "DC" 0 1 1 1 3000
    (0, 0, 0, 0) (0, 0, 0, 0) (0, 0, 0, 0)).2.1 [] rfl

end P1255
